import Mathlib

/-!
Shallow embedding of the Goal Planning & Progress Tracking engine of the
personal-finance backend (files `app/services/goal_planner.py` and
`app/api/v1/goals.py`).  Python floats are modelled as rationals (ℚ);
Python's `round(x, n)` is modelled by rounding `x * 10^n` to the nearest
integer (tie-breaking differs from Python's round-half-to-even, but no
statement below depends on tie behaviour); Python's `float('inf')`
sentinel for an unbounded time-to-goal is modelled as `none`.
-/

namespace SmartBridge

/-- Python `round(x, 2)`: round to 2 decimal places. -/
def round2 (x : ℚ) : ℚ := (round (x * 100) : ℚ) / 100

/-- Python `round(x, 1)`: round to 1 decimal place. -/
def round1 (x : ℚ) : ℚ := (round (x * 10) : ℚ) / 10

/-- Predicate: `x` is already a 2-decimal-place value (rounding it again changes nothing). -/
def isRounded2 (x : ℚ) : Prop := round2 x = x

instance (x : ℚ) : Decidable (isRounded2 x) := by unfold isRounded2; infer_instance

/-- A transaction record as read by the Capacity Analyzer:
`tx["type"]`, `tx["category"]`, `tx["amount"]`, and `tx["date"].month`
(only the month of the date is ever inspected by the analyzer). -/
structure Transaction where
  txType : String
  category : String
  amount : ℚ
  month : ℕ
deriving DecidableEq, Repr

/-- Python `months_count = len(set(tx["date"].month for tx in transactions)) or 1`. -/
def monthsCount (txs : List Transaction) : ℕ :=
  let n := (txs.map (·.month)).dedup.length
  if n = 0 then 1 else n

/-- Sum of expense-type transaction amounts in a given category. -/
def categoryTotal (txs : List Transaction) (cat : String) : ℚ :=
  ((txs.filter (fun tx => tx.txType == "expense" && tx.category == cat)).map (·.amount)).sum

/-- The CapacitySnapshot dictionary returned by `analyze_financial_capacity`. -/
structure CapacitySnapshot where
  monthly_income : ℚ
  monthly_expenses : ℚ
  available_for_savings : ℚ
  savings_rate : ℚ
  category_expenses : List (String × ℚ)
  risk_profile : String
deriving DecidableEq, Repr

/-- Embedding of `GoalPlannerService.analyze_financial_capacity`: aggregate a transaction
window into monthly averages.  The category dictionary is modelled as an
association list over the distinct expense categories. -/
def analyze_financial_capacity (txs : List Transaction) (risk_profile : String) :
    CapacitySnapshot :=
  let income_txs := txs.filter (fun tx => tx.txType == "income")
  let expense_txs := txs.filter (fun tx => tx.txType == "expense")
  let total_income := (income_txs.map (·.amount)).sum
  let total_expenses := (expense_txs.map (·.amount)).sum
  let months_count : ℚ := (monthsCount txs : ℚ)
  let monthly_income := total_income / months_count
  let monthly_expenses := total_expenses / months_count
  let available_for_savings := monthly_income - monthly_expenses
  let category_expenses :=
    ((expense_txs.map (·.category)).dedup).map
      (fun c => (c, categoryTotal txs c / months_count))
  { monthly_income := round2 monthly_income
    monthly_expenses := round2 monthly_expenses
    available_for_savings := round2 available_for_savings
    savings_rate :=
      if monthly_income > 0 then round2 (available_for_savings / monthly_income * 100) else 0
    category_expenses := category_expenses
    risk_profile := risk_profile }

/-- The strategy dictionary produced by the three `calculate_*_strategy`
methods.  `time_to_goal = none` models the `float('inf')` sentinel. -/
structure StrategyPlan where
  monthly_saving : ℚ
  time_to_goal : Option ℚ
  feasibility : String
  lifestyle_impact : String
  breakdown : List (String × ℚ)
  additional_income_needed : ℚ
deriving DecidableEq, Repr

/-- Embedding of `GoalPlannerService.calculate_easy_strategy`. -/
def calculate_easy_strategy (amount_needed : ℚ) (months_to_goal : ℤ)
    (fa : CapacitySnapshot) : StrategyPlan :=
  let _ := months_to_goal
  let available := fa.available_for_savings
  let monthly_saving := available * 0.30
  let adjusted_months : Option ℚ :=
    if monthly_saving ≤ 0 then none else some (amount_needed / monthly_saving)
  { monthly_saving := round2 monthly_saving
    time_to_goal := adjusted_months.map round1
    feasibility := "High - Easy to achieve"
    lifestyle_impact := "Minimal - Small adjustments only"
    breakdown :=
      [("from_available_savings", round2 monthly_saving),
       ("reduce_dining_out", round2 (monthly_saving * 0.4)),
       ("reduce_entertainment", round2 (monthly_saving * 0.3)),
       ("optimize_subscriptions", round2 (monthly_saving * 0.3))]
    additional_income_needed := 0 }

/-- Embedding of `GoalPlannerService.calculate_moderate_strategy`. -/
def calculate_moderate_strategy (amount_needed : ℚ) (months_to_goal : ℤ)
    (fa : CapacitySnapshot) : StrategyPlan :=
  let _ := months_to_goal
  let available := fa.available_for_savings
  let expenses := fa.monthly_expenses
  let from_savings := available * 0.60
  let from_reduction := expenses * 0.10
  let monthly_saving := from_savings + from_reduction
  let adjusted_months : Option ℚ :=
    if monthly_saving ≤ 0 then none else some (amount_needed / monthly_saving)
  { monthly_saving := round2 monthly_saving
    time_to_goal := adjusted_months.map round1
    feasibility := "Medium - Requires discipline"
    lifestyle_impact := "Moderate - Noticeable changes"
    breakdown :=
      [("from_available_savings", round2 from_savings),
       ("reduce_food_expenses", round2 (expenses * 0.04)),
       ("reduce_shopping", round2 (expenses * 0.03)),
       ("reduce_entertainment", round2 (expenses * 0.02)),
       ("optimize_utilities", round2 (expenses * 0.01))]
    additional_income_needed := 0 }

/-- Embedding of `GoalPlannerService.calculate_aggressive_strategy`. -/
def calculate_aggressive_strategy (amount_needed : ℚ) (months_to_goal : ℤ)
    (fa : CapacitySnapshot) : StrategyPlan :=
  let available := fa.available_for_savings
  let expenses := fa.monthly_expenses
  let from_savings := available * 0.90
  let from_reduction := expenses * 0.20
  let monthly_saving := from_savings + from_reduction
  let adjusted_months : Option ℚ :=
    if monthly_saving ≤ 0 then none else some (amount_needed / monthly_saving)
  let required_monthly := amount_needed / (months_to_goal : ℚ)
  let additional_needed := max 0 (required_monthly - monthly_saving)
  { monthly_saving := round2 monthly_saving
    time_to_goal := adjusted_months.map round1
    feasibility := "Challenging - Requires significant effort"
    lifestyle_impact := "Significant - Major changes required"
    breakdown :=
      [("from_available_savings", round2 from_savings),
       ("reduce_all_discretionary", round2 from_reduction),
       ("eliminate_subscriptions", round2 (expenses * 0.05)),
       ("minimize_dining_out", round2 (expenses * 0.08)),
       ("reduce_transport", round2 (expenses * 0.04)),
       ("other_cuts", round2 (expenses * 0.03))]
    additional_income_needed := round2 additional_needed }

/-- Embedding of `GoalPlannerService.calculate_feasibility_score`. -/
def calculate_feasibility_score (monthly_saving : ℚ) (available : ℚ) : ℚ :=
  if available ≤ 0 then 0
  else
    let ratio := monthly_saving / available
    if ratio ≤ 0.3 then 95
    else if ratio ≤ 0.6 then 75
    else if ratio ≤ 0.9 then 50
    else 25

/-- Sum of the numeric values of a breakdown dictionary. -/
def breakdownSum (b : List (String × ℚ)) : ℚ := (b.map Prod.snd).sum

/-- Python `progress_percentage = (current / target * 100) if target > 0 else 0`. -/
def progressPercentage (current target : ℚ) : ℚ :=
  if target > 0 then current / target * 100 else 0

/-- Python `time_progress = (elapsed_days / total_days * 100) if total_days > 0 else 0`. -/
def timeProgress (elapsed_days total_days : ℤ) : ℚ :=
  if total_days > 0 then (elapsed_days : ℚ) / (total_days : ℚ) * 100 else 0

/-- The dictionary returned by `GoalPlannerService.calculate_goal_progress`.
The projected completion date `now + timedelta(days=days_to_complete)` is
modelled by the day offset from `now`; `none` models Python's `None`. -/
structure GoalProgress where
  current_amount : ℚ
  target_amount : ℚ
  progress_percentage : ℚ
  amount_remaining : ℚ
  time_progress_percentage : ℚ
  days_elapsed : ℤ
  days_remaining : ℤ
  months_remaining : ℚ
  on_track : Bool
  projected_completion : Option ℚ
  status : String
deriving DecidableEq, Repr

/-- Embedding of `GoalPlannerService.calculate_goal_progress`.  The date arithmetic
`total_days = (target_date - start_date).days` etc. is performed by the
caller; the three day counts are the function's numeric inputs.
In the `current > 0 and elapsed_days > 0` branch, `daily_rate > 0` always
holds, so the source's `float('inf')` fallback for `days_to_complete`
(modelled `none`) is unreachable. -/
def calculate_goal_progress (current target : ℚ)
    (total_days elapsed_days remaining_days : ℤ) : GoalProgress :=
  let progress_percentage := progressPercentage current target
  let time_progress := timeProgress elapsed_days total_days
  let on_track : Bool := decide (progress_percentage ≥ time_progress * 0.9)
  let projected_completion : Option ℚ :=
    if 0 < current ∧ 0 < elapsed_days then
      let daily_rate := current / (elapsed_days : ℚ)
      let remaining_amount := target - current
      if daily_rate > 0 then some (remaining_amount / daily_rate) else none
    else none
  { current_amount := current
    target_amount := target
    progress_percentage := round2 progress_percentage
    amount_remaining := target - current
    time_progress_percentage := round2 time_progress
    days_elapsed := elapsed_days
    days_remaining := max 0 remaining_days
    months_remaining := max 0 ((remaining_days : ℚ) / 30)
    on_track := on_track
    projected_completion := projected_completion
    status :=
      if progress_percentage > time_progress then "ahead"
      else if progress_percentage < time_progress * 0.9 then "behind"
      else "on_track" }

/-- A milestone appended by `add_contribution` in `app/api/v1/goals.py`.
`date` is the `datetime.utcnow()` timestamp supplied by the caller. -/
structure Milestone where
  date : ℤ
  amount : ℚ
  percentage : ℚ
  contribution : ℚ
  note : Option String
deriving DecidableEq, Repr

/-- The goal document fields that `add_contribution` reads and writes.
`status` is the stored string (`"active"`, `"completed"`, `"paused"`,
`"failed"`); `completed_at` is an optional timestamp. -/
structure Goal where
  current_amount : ℚ
  target_amount : ℚ
  status : String
  completed_at : Option ℤ
  milestones : List Milestone
  total_contributed : ℚ
  progress_percentage : ℚ
deriving DecidableEq, Repr

/-- The JSON body returned by `add_contribution`. -/
structure ContributionResult where
  new_amount : ℚ
  progress_percentage : ℚ
  status : String
deriving DecidableEq, Repr

/-- The read-modify-write performed by `POST /goals/{id}/contribute`
(`add_contribution` in `app/api/v1/goals.py`): returns the updated goal
document together with the response body.  `now` stands for
`datetime.utcnow()`.  The request schema (`GoalContribution`) requires
`amount > 0` before this code runs. -/
def add_contribution (goal : Goal) (amount : ℚ) (note : Option String) (now : ℤ) :
    Goal × ContributionResult :=
  let new_amount := goal.current_amount + amount
  let new_progress :=
    if goal.target_amount > 0 then new_amount / goal.target_amount * 100 else 0
  let completes : Bool := decide (new_amount ≥ goal.target_amount) && (goal.status == "active")
  let new_status := if completes then "completed" else goal.status
  let completed_at := if completes then some now else goal.completed_at
  let milestone : Milestone :=
    { date := now
      amount := new_amount
      percentage := new_progress
      contribution := amount
      note := note }
  ({ current_amount := new_amount
     target_amount := goal.target_amount
     status := new_status
     completed_at := completed_at
     milestones := goal.milestones ++ [milestone]
     total_contributed := goal.total_contributed + amount
     progress_percentage := new_progress },
   { new_amount := new_amount
     progress_percentage := new_progress
     status := new_status })

/-! ### Concrete inputs used in the theorems below -/

/-- The capacity snapshot of the spec's worked scenario:
income 60000, expenses 30000, available 30000. -/
def snapScenario : CapacitySnapshot :=
  { monthly_income := 60000
    monthly_expenses := 30000
    available_for_savings := 30000
    savings_rate := 50
    category_expenses := []
    risk_profile := "moderate" }

/-- Three transactions spanning three distinct months: one expense of 10 in
the "food" category plus two incomes, so the "food" monthly average is
`10 / 3`, which has no exact 2-decimal representation. -/
def txsThirds : List Transaction :=
  [⟨"expense", "food", 10, 1⟩, ⟨"income", "salary", 5, 2⟩, ⟨"income", "salary", 5, 3⟩]

/-- A snapshot with available-for-savings 100 and monthly expenses 100. -/
def snapHundred : CapacitySnapshot :=
  { monthly_income := 200
    monthly_expenses := 100
    available_for_savings := 100
    savings_rate := 50
    category_expenses := []
    risk_profile := "moderate" }

/-- An active goal at 50 of 100 with no milestones yet. -/
def goalActive : Goal :=
  { current_amount := 50
    target_amount := 100
    status := "active"
    completed_at := none
    milestones := []
    total_contributed := 50
    progress_percentage := 50 }

/-- A paused goal at 90 of 100. -/
def goalPaused : Goal :=
  { current_amount := 90
    target_amount := 100
    status := "paused"
    completed_at := none
    milestones := []
    total_contributed := 90
    progress_percentage := 90 }

/-! ### Rounding helper lemmas -/

theorem abs_round2_sub (x : ℚ) : |round2 x - x| ≤ 1 / 200 := by
  have h := abs_sub_round (x * 100)
  rw [abs_sub_comm] at h
  have hx : round2 x - x = ((round (x * 100) : ℚ) - x * 100) / 100 := by
    rw [round2]; ring
  rw [hx, abs_div, abs_of_pos (by norm_num : (0 : ℚ) < 100)]
  linarith

theorem round2_mono {x y : ℚ} (h : x ≤ y) : round2 x ≤ round2 y := by
  unfold round2
  have hr : round (x * 100) ≤ round (y * 100) := by
    rw [round_eq, round_eq]
    exact Int.floor_mono (by linarith)
  have : ((round (x * 100) : ℤ) : ℚ) ≤ ((round (y * 100) : ℤ) : ℚ) := by exact_mod_cast hr
  linarith

theorem round2_idem (x : ℚ) : round2 (round2 x) = round2 x := by
  unfold round2
  rw [div_mul_cancel₀ _ (by norm_num : (100 : ℚ) ≠ 0), round_intCast]

theorem round2_zero : round2 0 = 0 := by
  simp [round2]

/-! ### Claim theorems -/

/-- C1: for every capacity snapshot the three strategies compute their
monthly saving by the exact formulas easy = 0.30 × available,
moderate = 0.60 × available + 0.10 × expenses,
aggressive = 0.90 × available + 0.20 × expenses (each rounded to 2
decimals); for income 60000 / expenses 30000 (available 30000) they are
9000, 21000 and 33000. -/
theorem strategy_monthly_saving_formulas (an : ℚ) (m : ℤ) (fa : CapacitySnapshot) :
    (calculate_easy_strategy an m fa).monthly_saving
      = round2 (0.30 * fa.available_for_savings)
    ∧ (calculate_moderate_strategy an m fa).monthly_saving
      = round2 (0.60 * fa.available_for_savings + 0.10 * fa.monthly_expenses)
    ∧ (calculate_aggressive_strategy an m fa).monthly_saving
      = round2 (0.90 * fa.available_for_savings + 0.20 * fa.monthly_expenses)
    ∧ (calculate_easy_strategy an m snapScenario).monthly_saving = 9000
    ∧ (calculate_moderate_strategy an m snapScenario).monthly_saving = 21000
    ∧ (calculate_aggressive_strategy an m snapScenario).monthly_saving = 33000 := by
  refine ⟨?_, ?_, ?_, ?_, ?_, ?_⟩
  · simp only [calculate_easy_strategy]; rw [mul_comm]
  · simp only [calculate_moderate_strategy]; congr 1; ring
  · simp only [calculate_aggressive_strategy]; congr 1; ring
  · norm_num [calculate_easy_strategy, snapScenario, round2, round_eq]
  · norm_num [calculate_moderate_strategy, snapScenario, round2, round_eq]
  · norm_num [calculate_aggressive_strategy, snapScenario, round2, round_eq]

/-- C3: the feasibility score is one of 0, 25, 50, 75, 95; it is 0 iff
available-for-savings ≤ 0, and otherwise determined by the ratio
monthly_saving / available with thresholds 0.3, 0.6, 0.9. -/
theorem feasibility_score_range (ms available : ℚ) :
    calculate_feasibility_score ms available ∈ ([0, 25, 50, 75, 95] : List ℚ)
    ∧ (calculate_feasibility_score ms available = 0 ↔ available ≤ 0)
    ∧ (0 < available →
        calculate_feasibility_score ms available =
          (if ms / available ≤ 0.3 then 95
           else if ms / available ≤ 0.6 then 75
           else if ms / available ≤ 0.9 then 50
           else 25)) := by
  by_cases h1 : available ≤ 0
  · refine ⟨?_, ?_, ?_⟩
    · simp [calculate_feasibility_score, h1]
    · simp [calculate_feasibility_score, h1]
    · intro h; linarith
  · refine ⟨?_, ?_, ?_⟩
    · simp only [calculate_feasibility_score]
      rw [if_neg h1]
      split_ifs <;> simp
    · constructor
      · intro h
        simp only [calculate_feasibility_score] at h
        rw [if_neg h1] at h
        split_ifs at h <;> norm_num at h
      · intro h; exact absurd h h1
    · intro _
      simp only [calculate_feasibility_score]
      rw [if_neg h1]

/-- C3 witness: the score of monthly saving 9000 against available 30000
(ratio 0.3) satisfies the characterization, with the positivity
hypothesis of the third part discharged at 30000. -/
theorem feasibility_score_range_check :
    calculate_feasibility_score 9000 30000 ∈ ([0, 25, 50, 75, 95] : List ℚ)
    ∧ (calculate_feasibility_score 9000 30000 = 0 ↔ (30000 : ℚ) ≤ 0)
    ∧ ((0 : ℚ) < 30000 →
        calculate_feasibility_score 9000 30000 =
          (if (9000 : ℚ) / 30000 ≤ 0.3 then 95
           else if (9000 : ℚ) / 30000 ≤ 0.6 then 75
           else if (9000 : ℚ) / 30000 ≤ 0.9 then 50
           else 25)) :=
  feasibility_score_range 9000 30000

/-- C4: on_track holds exactly when progress ≥ 0.9 × time progress; the
status is "ahead" when progress > time progress, "behind" when
progress < 0.9 × time progress, otherwise "on_track"; at day 50 of a
100-day goal with current 40% of target, time progress is 50%, the
status is "behind" and on_track is false. -/
theorem goal_progress_classification (current target : ℚ) (td ed rd : ℤ) :
    ((calculate_goal_progress current target td ed rd).on_track = true ↔
      0.9 * timeProgress ed td ≤ progressPercentage current target)
    ∧ (calculate_goal_progress current target td ed rd).status =
        (if progressPercentage current target > timeProgress ed td then "ahead"
         else if progressPercentage current target < 0.9 * timeProgress ed td then "behind"
         else "on_track")
    ∧ (calculate_goal_progress 40 100 100 50 50).time_progress_percentage = 50
    ∧ (calculate_goal_progress 40 100 100 50 50).status = "behind"
    ∧ (calculate_goal_progress 40 100 100 50 50).on_track = false := by
  refine ⟨?_, ?_, ?_, ?_, ?_⟩
  · simp [calculate_goal_progress, decide_eq_true_eq, ge_iff_le, mul_comm]
  · simp only [calculate_goal_progress, mul_comm]
  · norm_num [calculate_goal_progress, progressPercentage, timeProgress, round2, round_eq]
  · norm_num [calculate_goal_progress, progressPercentage, timeProgress]
  · norm_num [calculate_goal_progress, progressPercentage, timeProgress]

/-- C5: the projected completion offset is present iff current_amount > 0
and elapsed_days > 0, and then equals (target − current)/(current/elapsed)
days from now; otherwise it is the explicit absent value `none`. -/
theorem projected_completion_condition (current target : ℚ) (td ed rd : ℤ) :
    ((calculate_goal_progress current target td ed rd).projected_completion.isSome
      ↔ 0 < current ∧ 0 < ed)
    ∧ (0 < current → 0 < ed →
        (calculate_goal_progress current target td ed rd).projected_completion
          = some ((target - current) / (current / (ed : ℚ)))) := by
  constructor
  · simp only [calculate_goal_progress]
    split_ifs with h h2
    · simp [h]
    · exfalso
      exact h2 (div_pos h.1 (by exact_mod_cast h.2))
    · simp [h]
  · intro h1 h2
    simp only [calculate_goal_progress]
    rw [if_pos ⟨h1, h2⟩, if_pos (div_pos h1 (by exact_mod_cast h2))]

/-- C5 witness: at current 40, target 100, 50 of 100 days elapsed, the
projected completion is present and equals 75 days from now, with both
positivity hypotheses discharged concretely. -/
theorem projected_completion_condition_check :
    ((calculate_goal_progress 40 100 100 50 50).projected_completion.isSome
      ↔ (0 : ℚ) < 40 ∧ (0 : ℤ) < 50)
    ∧ ((0 : ℚ) < 40 → (0 : ℤ) < 50 →
        (calculate_goal_progress 40 100 100 50 50).projected_completion
          = some ((100 - 40) / (40 / ((50 : ℤ) : ℚ)))) :=
  projected_completion_condition 40 100 100 50 50

/-- C2: a positive contribution adds the amount to current_amount, sets
progress to new/target × 100 (0 when target ≤ 0), appends exactly one
milestone carrying the cumulative amount, that percentage, the delta and
the note, increases total_contributed by exactly the amount (so it never
decreases), and completes an active goal whose new amount reaches the
target, recording the completion timestamp. -/
theorem add_contribution_effect (g : Goal) (amount : ℚ) (note : Option String) (now : ℤ)
    (h : 0 < amount) :
    (add_contribution g amount note now).1.current_amount = g.current_amount + amount
    ∧ (add_contribution g amount note now).1.progress_percentage =
        (if g.target_amount > 0
         then (g.current_amount + amount) / g.target_amount * 100 else 0)
    ∧ (add_contribution g amount note now).1.milestones =
        g.milestones ++
          [{ date := now
             amount := g.current_amount + amount
             percentage :=
               (if g.target_amount > 0
                then (g.current_amount + amount) / g.target_amount * 100 else 0)
             contribution := amount
             note := note }]
    ∧ (add_contribution g amount note now).1.total_contributed = g.total_contributed + amount
    ∧ g.total_contributed < (add_contribution g amount note now).1.total_contributed
    ∧ (g.current_amount + amount ≥ g.target_amount → g.status = "active" →
        (add_contribution g amount note now).1.status = "completed"
        ∧ (add_contribution g amount note now).1.completed_at = some now) := by
  refine ⟨rfl, rfl, rfl, rfl, ?_, ?_⟩
  · show g.total_contributed < g.total_contributed + amount
    linarith
  · intro hge hact
    constructor <;> simp [add_contribution, hact, hge]

/-- C2 witness: contributing 60 to the active goal at 50 of 100 adds the
amount, reaches the target, and completes the goal with timestamp 7. -/
theorem add_contribution_effect_check :
    (0 : ℚ) < 60
    ∧ (add_contribution goalActive 60 none 7).1.current_amount
        = goalActive.current_amount + 60
    ∧ (add_contribution goalActive 60 none 7).1.total_contributed
        = goalActive.total_contributed + 60
    ∧ (add_contribution goalActive 60 none 7).1.status = "completed"
    ∧ (add_contribution goalActive 60 none 7).1.completed_at = some 7 := by
  have h := add_contribution_effect goalActive 60 none 7 (by norm_num)
  have hc := h.2.2.2.2.2 (by norm_num [goalActive]) (by norm_num [goalActive])
  exact ⟨by norm_num, h.1, h.2.2.2.1, hc.1, hc.2⟩

/-- C10: contributing to a goal whose status is not "active" still adds
the amount to current_amount and total_contributed and appends the
milestone, but leaves the status and the completion timestamp unchanged,
so no status transition other than active → completed ever happens here. -/
theorem contribution_nonactive_keeps_status (g : Goal) (amount : ℚ)
    (note : Option String) (now : ℤ) (h : g.status ≠ "active") :
    (add_contribution g amount note now).1.status = g.status
    ∧ (add_contribution g amount note now).1.completed_at = g.completed_at
    ∧ (add_contribution g amount note now).1.current_amount = g.current_amount + amount
    ∧ (add_contribution g amount note now).1.total_contributed = g.total_contributed + amount
    ∧ (add_contribution g amount note now).1.milestones =
        g.milestones ++
          [{ date := now
             amount := g.current_amount + amount
             percentage :=
               (if g.target_amount > 0
                then (g.current_amount + amount) / g.target_amount * 100 else 0)
             contribution := amount
             note := note }] := by
  refine ⟨?_, ?_, rfl, rfl, rfl⟩ <;> simp [add_contribution, h]

/-- C10 witness: contributing 10 to the paused goal at 90 of 100 reaches
the target, yet the status stays "paused" and no completion timestamp is
recorded, with the non-active hypothesis discharged by computation. -/
theorem contribution_nonactive_keeps_status_check :
    goalPaused.status ≠ "active"
    ∧ (add_contribution goalPaused 10 none 3).1.status = goalPaused.status
    ∧ (add_contribution goalPaused 10 none 3).1.completed_at = goalPaused.completed_at
    ∧ (add_contribution goalPaused 10 none 3).1.current_amount
        = goalPaused.current_amount + 10 := by
  have h := contribution_nonactive_keeps_status goalPaused 10 none 3 (by decide)
  exact ⟨by decide, h.1, h.2.1, h.2.2.1⟩

/-- C6: the degenerate inputs take explicit fallbacks instead of failing:
an empty transaction list yields the all-zero snapshot (savings rate 0
since income is 0), a strategy whose monthly saving is ≤ 0 gets the
infinite time-to-goal sentinel (`none`), and progress percentages are 0
when target ≤ 0 or total_days ≤ 0. -/
theorem degenerate_inputs_no_failure (rp : String) :
    (analyze_financial_capacity [] rp).monthly_income = 0
    ∧ (analyze_financial_capacity [] rp).monthly_expenses = 0
    ∧ (analyze_financial_capacity [] rp).available_for_savings = 0
    ∧ (analyze_financial_capacity [] rp).savings_rate = 0
    ∧ (analyze_financial_capacity [] rp).category_expenses = []
    ∧ (∀ (an : ℚ) (m : ℤ) (fa : CapacitySnapshot),
        fa.available_for_savings * 0.30 ≤ 0 →
        (calculate_easy_strategy an m fa).time_to_goal = none)
    ∧ (∀ (an : ℚ) (m : ℤ) (fa : CapacitySnapshot),
        fa.available_for_savings * 0.60 + fa.monthly_expenses * 0.10 ≤ 0 →
        (calculate_moderate_strategy an m fa).time_to_goal = none)
    ∧ (∀ (an : ℚ) (m : ℤ) (fa : CapacitySnapshot),
        fa.available_for_savings * 0.90 + fa.monthly_expenses * 0.20 ≤ 0 →
        (calculate_aggressive_strategy an m fa).time_to_goal = none)
    ∧ (∀ (current target : ℚ) (td ed rd : ℤ), target ≤ 0 →
        (calculate_goal_progress current target td ed rd).progress_percentage = 0)
    ∧ (∀ (current target : ℚ) (td ed rd : ℤ), td ≤ 0 →
        (calculate_goal_progress current target td ed rd).time_progress_percentage = 0) := by
  refine ⟨?_, ?_, ?_, ?_, ?_, ?_, ?_, ?_, ?_, ?_⟩
  · simp [analyze_financial_capacity, monthsCount, round2]
  · simp [analyze_financial_capacity, monthsCount, round2]
  · simp [analyze_financial_capacity, monthsCount, round2]
  · simp [analyze_financial_capacity, monthsCount]
  · simp [analyze_financial_capacity]
  · intro an m fa hms
    simp only [calculate_easy_strategy]
    rw [if_pos hms]
    rfl
  · intro an m fa hms
    simp only [calculate_moderate_strategy]
    rw [if_pos hms]
    rfl
  · intro an m fa hms
    simp only [calculate_aggressive_strategy]
    rw [if_pos hms]
    rfl
  · intro current target td ed rd ht
    simp [calculate_goal_progress, progressPercentage, not_lt.mpr ht, round2_zero]
  · intro current target td ed rd ht
    simp [calculate_goal_progress, timeProgress, not_lt.mpr ht, round2_zero]

/-- C6 witness: the empty snapshot is all zero, the easy strategy over the
empty snapshot (available 0, so monthly saving 0 ≤ 0) has the infinite
sentinel, and a goal with target 0 and total days 0 gets zero
percentages; all inner hypotheses discharged by evaluation. -/
theorem degenerate_inputs_no_failure_check :
    (analyze_financial_capacity [] "moderate").savings_rate = 0
    ∧ (analyze_financial_capacity [] "moderate").available_for_savings * 0.30 ≤ 0
    ∧ (calculate_easy_strategy 1000 1 (analyze_financial_capacity [] "moderate")).time_to_goal
        = none
    ∧ (calculate_goal_progress 5 0 0 0 0).progress_percentage = 0
    ∧ (calculate_goal_progress 5 0 0 0 0).time_progress_percentage = 0 := by
  have h := degenerate_inputs_no_failure "moderate"
  have hav : (analyze_financial_capacity [] "moderate").available_for_savings * 0.30 ≤ 0 := by
    rw [h.2.2.1]; norm_num
  refine ⟨h.2.2.2.1, hav, ?_, ?_, ?_⟩
  · exact h.2.2.2.2.2.1 1000 1 _ hav
  · exact h.2.2.2.2.2.2.2.2.1 5 0 0 0 0 le_rfl
  · exact h.2.2.2.2.2.2.2.2.2 5 0 0 0 0 le_rfl

/-- C7: with available-for-savings ≥ 0 and monthly expenses ≥ 0 the three
monthly savings are ordered easy ≤ moderate ≤ aggressive. -/
theorem strategy_savings_ordered (an : ℚ) (m : ℤ) (fa : CapacitySnapshot)
    (ha : 0 ≤ fa.available_for_savings) (he : 0 ≤ fa.monthly_expenses) :
    (calculate_easy_strategy an m fa).monthly_saving
      ≤ (calculate_moderate_strategy an m fa).monthly_saving
    ∧ (calculate_moderate_strategy an m fa).monthly_saving
      ≤ (calculate_aggressive_strategy an m fa).monthly_saving := by
  constructor
  · simp only [calculate_easy_strategy, calculate_moderate_strategy]
    exact round2_mono (by nlinarith)
  · simp only [calculate_moderate_strategy, calculate_aggressive_strategy]
    exact round2_mono (by nlinarith)

/-- C7 witness: on the snapshot with available 30000 and expenses 30000
the ordering hypotheses hold and the monthly savings are ordered. -/
theorem strategy_savings_ordered_check :
    (0 : ℚ) ≤ snapScenario.available_for_savings
    ∧ (0 : ℚ) ≤ snapScenario.monthly_expenses
    ∧ (calculate_easy_strategy 100000 10 snapScenario).monthly_saving
        ≤ (calculate_moderate_strategy 100000 10 snapScenario).monthly_saving
    ∧ (calculate_moderate_strategy 100000 10 snapScenario).monthly_saving
        ≤ (calculate_aggressive_strategy 100000 10 snapScenario).monthly_saving := by
  have h := strategy_savings_ordered 100000 10 snapScenario
    (by norm_num [snapScenario]) (by norm_num [snapScenario])
  exact ⟨by norm_num [snapScenario], by norm_num [snapScenario], h.1, h.2⟩

/-- C8 counterexample: on three transactions spanning three months with a
single "food" expense of 10, the snapshot's category average for "food"
is `10 / 3`, which is not a 2-decimal-place value — the category-wise
averages are not rounded, contradicting the claim's "every monetary
figure is rounded". -/
theorem category_average_unrounded_cex :
    (analyze_financial_capacity txsThirds "moderate").category_expenses = [("food", 10 / 3)]
    ∧ ¬ isRounded2 (10 / 3) := by
  constructor
  · simp +decide [analyze_financial_capacity, txsThirds, categoryTotal, monthsCount]
  · norm_num [isRounded2, round2, round_eq]

/-- C8 amended: the four top-level snapshot figures — monthly income,
monthly expenses, available-for-savings and savings rate — are rounded to
2 decimal places (the category-wise averages are not). -/
theorem snapshot_top_level_rounded (txs : List Transaction) (rp : String) :
    isRounded2 (analyze_financial_capacity txs rp).monthly_income
    ∧ isRounded2 (analyze_financial_capacity txs rp).monthly_expenses
    ∧ isRounded2 (analyze_financial_capacity txs rp).available_for_savings
    ∧ isRounded2 (analyze_financial_capacity txs rp).savings_rate := by
  refine ⟨round2_idem _, round2_idem _, round2_idem _, ?_⟩
  simp only [analyze_financial_capacity, isRounded2]
  split_ifs
  · exact round2_idem _
  · exact round2_zero

/-- C9 counterexample: on the snapshot with available 100 and expenses
100, the easy strategy's breakdown entries sum to 60 while its monthly
saving is 30 — off by 30, far beyond any rounding slack — so the
breakdown does not sum to the monthly saving within rounding. -/
theorem easy_breakdown_sum_cex :
    breakdownSum (calculate_easy_strategy 0 1 snapHundred).breakdown = 60
    ∧ (calculate_easy_strategy 0 1 snapHundred).monthly_saving = 30
    ∧ ¬ |breakdownSum (calculate_easy_strategy 0 1 snapHundred).breakdown
          - (calculate_easy_strategy 0 1 snapHundred).monthly_saving| ≤ 1 := by
  have h1 : breakdownSum (calculate_easy_strategy 0 1 snapHundred).breakdown = 60 := by
    norm_num [calculate_easy_strategy, breakdownSum, snapHundred, round2, round_eq]
  have h2 : (calculate_easy_strategy 0 1 snapHundred).monthly_saving = 30 := by
    norm_num [calculate_easy_strategy, snapHundred, round2, round_eq]
  refine ⟨h1, h2, ?_⟩
  rw [h1, h2]
  norm_num [abs_of_nonneg]

/-- C9 amended: within rounding slack, the moderate breakdown sums to the
monthly saving, the easy breakdown sums to twice the monthly saving (its
"from_available_savings" entry duplicates the three reduction entries),
and the aggressive breakdown sums to the monthly saving plus 0.20 × the
monthly expenses (its itemized cuts duplicate "reduce_all_discretionary"). -/
theorem breakdown_sums_characterized (an : ℚ) (m : ℤ) (fa : CapacitySnapshot) :
    |breakdownSum (calculate_easy_strategy an m fa).breakdown
      - 2 * (calculate_easy_strategy an m fa).monthly_saving| ≤ 1 / 50
    ∧ |breakdownSum (calculate_moderate_strategy an m fa).breakdown
      - (calculate_moderate_strategy an m fa).monthly_saving| ≤ 3 / 100
    ∧ |breakdownSum (calculate_aggressive_strategy an m fa).breakdown
      - ((calculate_aggressive_strategy an m fa).monthly_saving
         + 0.20 * fa.monthly_expenses)| ≤ 7 / 200 := by
  refine ⟨?_, ?_, ?_⟩
  · simp only [calculate_easy_strategy, breakdownSum, List.map_cons, List.map_nil,
      List.sum_cons, List.sum_nil]
    have e1 := abs_round2_sub (fa.available_for_savings * 0.30)
    have e2 := abs_round2_sub (fa.available_for_savings * 0.30 * 0.4)
    have e3 := abs_round2_sub (fa.available_for_savings * 0.30 * 0.3)
    rw [abs_le] at e1 e2 e3 ⊢
    constructor <;> linarith [e1.1, e1.2, e2.1, e2.2, e3.1, e3.2]
  · simp only [calculate_moderate_strategy, breakdownSum, List.map_cons, List.map_nil,
      List.sum_cons, List.sum_nil]
    have e0 := abs_round2_sub
      (fa.available_for_savings * 0.60 + fa.monthly_expenses * 0.10)
    have e1 := abs_round2_sub (fa.available_for_savings * 0.60)
    have e2 := abs_round2_sub (fa.monthly_expenses * 0.04)
    have e3 := abs_round2_sub (fa.monthly_expenses * 0.03)
    have e4 := abs_round2_sub (fa.monthly_expenses * 0.02)
    have e5 := abs_round2_sub (fa.monthly_expenses * 0.01)
    rw [abs_le] at e0 e1 e2 e3 e4 e5 ⊢
    constructor <;>
      linarith [e0.1, e0.2, e1.1, e1.2, e2.1, e2.2, e3.1, e3.2, e4.1, e4.2, e5.1, e5.2]
  · simp only [calculate_aggressive_strategy, breakdownSum, List.map_cons, List.map_nil,
      List.sum_cons, List.sum_nil]
    have e0 := abs_round2_sub
      (fa.available_for_savings * 0.90 + fa.monthly_expenses * 0.20)
    have e1 := abs_round2_sub (fa.available_for_savings * 0.90)
    have e2 := abs_round2_sub (fa.monthly_expenses * 0.20)
    have e3 := abs_round2_sub (fa.monthly_expenses * 0.05)
    have e4 := abs_round2_sub (fa.monthly_expenses * 0.08)
    have e5 := abs_round2_sub (fa.monthly_expenses * 0.04)
    have e6 := abs_round2_sub (fa.monthly_expenses * 0.03)
    rw [abs_le] at e0 e1 e2 e3 e4 e5 e6 ⊢
    constructor <;>
      linarith [e0.1, e0.2, e1.1, e1.2, e2.1, e2.2, e3.1, e3.2, e4.1, e4.2, e5.1, e5.2,
        e6.1, e6.2]

end SmartBridge
